import Mathlib

/-!
Shallow embedding of the examined parts of the repository:

* `beacon-chain/state/stategen/getter.go` — tiered state retrieval
  (`StateByRoot`, `StateBySlot`, `StateSummaryExists`, `stateSummary`,
  `recoverStateSummary`).
* `beacon-chain/p2p/encoder/ssz.go` — the length-prefixed, optionally
  snappy-compressed network codec (`Encode`, `EncodeGossip`,
  `EncodeWithLength`, `EncodeWithMaxLength`, `Decode`,
  `DecodeWithMaxLength`, `MaxLength`).

Modelling conventions, stated once here:

* 32-byte roots are modelled as `Nat` with decidable equality; the
  all-zero root (`params.BeaconConfig().ZeroHash`) is `zeroHash = 0`.
* Slots (`uint64`) are modelled as `Nat` (slot arithmetic in the examined
  code is comparison only, so no overflow is reachable).
* The persistent store and the summary cache are modelled as total maps
  `Nat → Option _`; an absent entry is `none`.  I/O failure channels of
  the store (transient database errors) are abstracted away: every store
  operation that the examined code performs is modelled as succeeding,
  since every claim under scrutiny quantifies over store contents, not
  over I/O faults.
* The hot/cold loaders (`loadColdStateByRoot`, `loadHotStateByRoot`,
  `loadColdStateBySlot`, `loadHotStateBySlot`) and the direct database
  state fetch (`beaconDB.State`) live outside the examined source; a call
  to one of them is modelled symbolically by a `Loaded` constructor that
  records exactly which loader the examined code delegated to, with which
  argument.
* Functions that mutate the receiver's stores return an updated
  `Stategen.State` alongside their result (explicit state passing).
-/

namespace Stategen

/-- A state summary record (`pb.StateSummary`): the slot of the state and the
root it is keyed by.  Only these two fields are touched by the examined
code. -/
structure StateSummary where
  slot : Nat
  root : Nat
deriving DecidableEq

/-- A stored signed block; the examined code reads only `b.Block.Slot`. -/
structure SignedBlock where
  slot : Nat
deriving DecidableEq

/-- The persistent store operations consumed by `getter.go`: summaries keyed by
root, blocks keyed by root. -/
structure BeaconDB where
  summaries : Nat → Option StateSummary
  blocks : Nat → Option SignedBlock

/-- `params.BeaconConfig().ZeroHash` — the all-zero 32-byte root. -/
def zeroHash : Nat := 0

/-- `db.HasStateSummary(ctx, r)`. -/
def BeaconDB.HasStateSummary (db : BeaconDB) (r : Nat) : Bool :=
  (db.summaries r).isSome

/-- `db.HasBlock(ctx, r)`. -/
def BeaconDB.HasBlock (db : BeaconDB) (r : Nat) : Bool :=
  (db.blocks r).isSome

/-- `db.SaveStateSummary(ctx, s)`: the store maps the summary's root to the
summary afterwards. -/
def BeaconDB.SaveStateSummary (db : BeaconDB) (s : StateSummary) : BeaconDB :=
  { db with summaries := fun x => if x = s.root then some s else db.summaries x }

/-- The `stategen.State` service object: the backing database, the in-memory
state summary cache, and the hot/cold split point's slot (`splitInfo.slot`;
the split root is never read by the examined code). -/
structure State where
  beaconDB : BeaconDB
  stateSummaryCache : Nat → Option StateSummary
  splitSlot : Nat

/-- Errors produced by the examined stategen code: `errUnknownStateSummary`,
and the `errors.Wrap(err, "could not get state summary")` wrapper that
`StateByRoot` applies before propagating. -/
inductive StategenErr
  | unknownStateSummary
  | wrapCouldNotGetStateSummary (e : StategenErr)
deriving DecidableEq

/-- Symbolic result of a successful retrieval: records which loader outside the
examined source the code delegated to, and with which argument. -/
inductive Loaded
  | stateFromDB (root : Nat)
  | coldByRoot (root : Nat)
  | hotByRoot (root : Nat)
  | coldBySlot (slot : Nat)
  | hotBySlot (slot : Nat)
deriving DecidableEq

/-- `recoverStateSummary` (getter.go:79-92): if a block with the root is stored,
synthesize `StateSummary{Slot: b.Block.Slot, Root: blockRoot}`, save it to the
store, and return it; otherwise fail with `errUnknownStateSummary`.  The Go
`HasBlock` guard followed by `Block` is the `match` on the stored block. -/
def State.recoverStateSummary (st : State) (blockRoot : Nat) :
    Except StategenErr StateSummary × State :=
  match st.beaconDB.blocks blockRoot with
  | some b =>
      let summary : StateSummary := { slot := b.slot, root := blockRoot }
      (Except.ok summary, { st with beaconDB := st.beaconDB.SaveStateSummary summary })
  | none => (Except.error StategenErr.unknownStateSummary, st)

/-- `stateSummary` (getter.go:61-76): consult the cache (`Has` then `Get`);
on a miss, the store; if the resulting summary is nil, fall back to
`recoverStateSummary`. -/
def State.stateSummary (st : State) (blockRoot : Nat) :
    Except StategenErr StateSummary × State :=
  match (match st.stateSummaryCache blockRoot with
         | some s => some s
         | none => st.beaconDB.summaries blockRoot) with
  | some summary => (Except.ok summary, st)
  | none => st.recoverStateSummary blockRoot

/-- `StateByRoot` (getter.go:16-35): genesis shortcut for the zero root, then
summary resolution, then tier routing against the split slot. -/
def State.StateByRoot (st : State) (blockRoot : Nat) :
    Except StategenErr Loaded × State :=
  if blockRoot = zeroHash then
    (Except.ok (Loaded.stateFromDB blockRoot), st)
  else
    match st.stateSummary blockRoot with
    | (Except.error e, st') => (Except.error (StategenErr.wrapCouldNotGetStateSummary e), st')
    | (Except.ok summary, st') =>
        if summary.slot < st'.splitSlot then (Except.ok (Loaded.coldByRoot blockRoot), st')
        else (Except.ok (Loaded.hotByRoot blockRoot), st')

/-- `StateBySlot` (getter.go:42-51): tier routing directly on the requested
slot. -/
def State.StateBySlot (st : State) (slot : Nat) :
    Except StategenErr Loaded × State :=
  if slot < st.splitSlot then (Except.ok (Loaded.coldBySlot slot), st)
  else (Except.ok (Loaded.hotBySlot slot), st)

/-- `StateSummaryExists` (getter.go:55-57): `HasStateSummary || cache.Has`.
Returned with the (unchanged) service state to make the absence of side
effects a provable statement. -/
def State.StateSummaryExists (st : State) (blockRoot : Nat) : Bool × State :=
  (st.beaconDB.HasStateSummary blockRoot || (st.stateSummaryCache blockRoot).isSome, st)

/-- The service state after `recoverStateSummary` persisted the summary derived
from block `b` at root `r`. -/
def afterRecovery (st : State) (r : Nat) (b : SignedBlock) : State :=
  { st with beaconDB := st.beaconDB.SaveStateSummary { slot := b.slot, root := r } }

end Stategen

namespace Stategen

theorem stateSummary_preserves_splitSlot (st : State) (r : Nat) :
    ((st.stateSummary r).2).splitSlot = st.splitSlot := by
  unfold State.stateSummary State.recoverStateSummary
  rcases hc : st.stateSummaryCache r with _ | s
  · rcases hd : st.beaconDB.summaries r with _ | s
    · rcases hb : st.beaconDB.blocks r with _ | b <;> simp [hc, hd, hb]
    · simp [hc, hd]
  · simp [hc]

/-- An example service state for witnesses: the cache holds a summary at slot 3
for root 5; the store is empty; the split slot is 10. -/
def stEx1 : State :=
  { beaconDB := { summaries := fun _ => none, blocks := fun _ => none }
    stateSummaryCache := fun r => if r = 5 then some { slot := 3, root := 5 } else none
    splitSlot := 10 }

/-- An example service state for witnesses: everything empty, split slot 0. -/
def stEx4 : State :=
  { beaconDB := { summaries := fun _ => none, blocks := fun _ => none }
    stateSummaryCache := fun _ => none
    splitSlot := 0 }

/-- An example service state for witnesses: no summaries anywhere, but the
store holds a block at slot 42 under root 7. -/
def stEx3 : State :=
  { beaconDB :=
      { summaries := fun _ => none
        blocks := fun r => if r = 7 then some { slot := 42 } else none }
    stateSummaryCache := fun _ => none
    splitSlot := 0 }

end Stategen

/-- C1: for a non-genesis root whose summary resolves to `s`, `StateByRoot`
delegates to the cold-path loader exactly when `s.slot` is strictly below the
split slot, and to the hot-path loader otherwise. -/
theorem stateByRoot_tier_routing (st : Stategen.State) (blockRoot : Nat)
    (hroot : blockRoot ≠ Stategen.zeroHash)
    (s : Stategen.StateSummary) (st' : Stategen.State)
    (hsum : st.stateSummary blockRoot = (Except.ok s, st')) :
    st.StateByRoot blockRoot =
      (if s.slot < st.splitSlot then (Except.ok (Stategen.Loaded.coldByRoot blockRoot), st')
       else (Except.ok (Stategen.Loaded.hotByRoot blockRoot), st')) := by
  have hsplit : st'.splitSlot = st.splitSlot := by
    have h := Stategen.stateSummary_preserves_splitSlot st blockRoot
    rw [hsum] at h
    exact h
  unfold Stategen.State.StateByRoot
  rw [if_neg hroot, hsum]
  dsimp only
  rw [hsplit]

/-- Witness for C1: on `stEx1` the summary for root 5 has slot 3 < split
slot 10, so the cold-path loader is chosen. -/
theorem stateByRoot_tier_routing_witness :
    Stategen.stEx1.StateByRoot 5 =
      (Except.ok (Stategen.Loaded.coldByRoot 5), Stategen.stEx1) := by
  have h := stateByRoot_tier_routing Stategen.stEx1 5 (by decide)
    { slot := 3, root := 5 } Stategen.stEx1 rfl
  simpa using h

/-- C2: for the zero (genesis) root, `StateByRoot` returns the state fetched
directly from the database and the service state unchanged, for every service
state — in particular independently of the summary cache, the stored
summaries, and the split slot, none of which are consulted. -/
theorem stateByRoot_genesis_shortcut (st : Stategen.State) :
    st.StateByRoot Stategen.zeroHash =
      (Except.ok (Stategen.Loaded.stateFromDB Stategen.zeroHash), st) := rfl

/-- C3: `stateSummary` resolves through cache, then store, then derivation
from a stored block.  On the derivation path the synthesized summary
`{slot := b.slot, root}` is persisted, and a subsequent resolution returns the
same summary from the store without touching the service state again — even
if the block is deleted in the meantime, showing it is not re-derived. -/
theorem stateSummary_three_level_fallback (st : Stategen.State) (blockRoot : Nat) :
    (∀ s, st.stateSummaryCache blockRoot = some s →
      st.stateSummary blockRoot = (Except.ok s, st)) ∧
    (∀ s, st.stateSummaryCache blockRoot = none →
      st.beaconDB.summaries blockRoot = some s →
      st.stateSummary blockRoot = (Except.ok s, st)) ∧
    (∀ b, st.stateSummaryCache blockRoot = none →
      st.beaconDB.summaries blockRoot = none →
      st.beaconDB.blocks blockRoot = some b →
      st.stateSummary blockRoot =
        (Except.ok { slot := b.slot, root := blockRoot }, Stategen.afterRecovery st blockRoot b) ∧
      (Stategen.afterRecovery st blockRoot b).beaconDB.summaries blockRoot =
        some { slot := b.slot, root := blockRoot } ∧
      (Stategen.afterRecovery st blockRoot b).stateSummary blockRoot =
        (Except.ok { slot := b.slot, root := blockRoot }, Stategen.afterRecovery st blockRoot b)) := by
  refine ⟨?_, ?_, ?_⟩
  · intro s hc
    unfold Stategen.State.stateSummary
    simp [hc]
  · intro s hc hd
    unfold Stategen.State.stateSummary
    simp [hc, hd]
  · intro b hc hd hb
    refine ⟨?_, ?_, ?_⟩
    · unfold Stategen.State.stateSummary Stategen.State.recoverStateSummary
      simp [hc, hd, hb, Stategen.afterRecovery]
    · simp [Stategen.afterRecovery, Stategen.BeaconDB.SaveStateSummary]
    · unfold Stategen.State.stateSummary
      simp [Stategen.afterRecovery, Stategen.BeaconDB.SaveStateSummary, hc]

/-- Witness for C3: on `stEx3` (block at slot 42 under root 7, no summaries)
resolution derives and persists `{slot := 42, root := 7}`, and resolving again
on the updated state returns the same summary with no further change. -/
theorem stateSummary_three_level_fallback_witness :
    Stategen.stEx3.stateSummary 7 =
      (Except.ok { slot := 42, root := 7 },
        Stategen.afterRecovery Stategen.stEx3 7 { slot := 42 }) ∧
    (Stategen.afterRecovery Stategen.stEx3 7 { slot := 42 }).stateSummary 7 =
      (Except.ok { slot := 42, root := 7 },
        Stategen.afterRecovery Stategen.stEx3 7 { slot := 42 }) := by
  have h := (stateSummary_three_level_fallback Stategen.stEx3 7).2.2
    { slot := 42 } rfl rfl rfl
  exact ⟨h.1, h.2.2⟩

/-- C4: when neither the cache nor the store holds a summary for the root and
no block with the root is stored, `stateSummary` fails with
`errUnknownStateSummary` and `StateByRoot` (for a non-genesis root) propagates
that failure, wrapped, instead of returning a state; nothing is persisted. -/
theorem unknownStateSummary_propagation (st : Stategen.State) (blockRoot : Nat)
    (hroot : blockRoot ≠ Stategen.zeroHash)
    (hc : st.stateSummaryCache blockRoot = none)
    (hd : st.beaconDB.summaries blockRoot = none)
    (hb : st.beaconDB.blocks blockRoot = none) :
    st.stateSummary blockRoot =
      (Except.error Stategen.StategenErr.unknownStateSummary, st) ∧
    st.StateByRoot blockRoot =
      (Except.error
        (Stategen.StategenErr.wrapCouldNotGetStateSummary
          Stategen.StategenErr.unknownStateSummary), st) := by
  have h1 : st.stateSummary blockRoot =
      (Except.error Stategen.StategenErr.unknownStateSummary, st) := by
    unfold Stategen.State.stateSummary Stategen.State.recoverStateSummary
    simp [hc, hd, hb]
  refine ⟨h1, ?_⟩
  unfold Stategen.State.StateByRoot
  rw [if_neg hroot, h1]

/-- Witness for C4: on the empty `stEx4`, root 1 has no summary and no block;
resolution fails and `StateByRoot` propagates the wrapped error. -/
theorem unknownStateSummary_propagation_witness :
    Stategen.stEx4.stateSummary 1 =
      (Except.error Stategen.StategenErr.unknownStateSummary, Stategen.stEx4) ∧
    Stategen.stEx4.StateByRoot 1 =
      (Except.error
        (Stategen.StategenErr.wrapCouldNotGetStateSummary
          Stategen.StategenErr.unknownStateSummary), Stategen.stEx4) :=
  unknownStateSummary_propagation Stategen.stEx4 1 (by decide) rfl rfl rfl

/-- C5: `StateSummaryExists` answers true exactly when the cache or the store
holds a summary for the root, and returns the service state unchanged: it
never synthesizes or persists anything. -/
theorem stateSummaryExists_no_side_effects (st : Stategen.State) (blockRoot : Nat) :
    ((st.StateSummaryExists blockRoot).1 = true ↔
      ((st.stateSummaryCache blockRoot).isSome = true ∨
        (st.beaconDB.summaries blockRoot).isSome = true)) ∧
    (st.StateSummaryExists blockRoot).2 = st := by
  constructor
  · simp [Stategen.State.StateSummaryExists, Stategen.BeaconDB.HasStateSummary, or_comm]
  · rfl

/-- C6: `StateBySlot` routes on the requested slot alone — cold-path loader
for slots strictly below the split slot, hot-path loader otherwise — with no
summary lookup and no change to the service state. -/
theorem stateBySlot_tier_routing (st : Stategen.State) (slot : Nat) :
    st.StateBySlot slot =
      (if slot < st.splitSlot then (Except.ok (Stategen.Loaded.coldBySlot slot), st)
       else (Except.ok (Stategen.Loaded.hotBySlot slot), st)) := rfl

namespace Encoder

/-- `MaxChunkSize` (ssz.go:17): `1 << 20` bytes. -/
def MaxChunkSize : Nat := 1 <<< 20

/-- `SszNetworkEncoder` (ssz.go:21-23). -/
structure SszNetworkEncoder where
  UseSnappyCompression : Bool
deriving DecidableEq

/-- Error channel of the encode entry points: a serialization failure from
`ssz.Marshal`, or the `fmt.Errorf` size rejection of `EncodeWithMaxLength`. -/
inductive EncodeErr
  | marshalFailed
  | sizeTooLarge (size limit : Nat)
deriving DecidableEq

/-- Error channel of `DecodeWithMaxLength`: the `fmt.Errorf` rejections of an
over-limit `maxSize` and of an over-limit declared message length, and a
failed varint read. -/
inductive DecodeErr
  | maxSizeExceedsChunk (maxSize : Nat)
  | varintFailed
  | sizeTooLarge (msgLen maxSize : Nat)
deriving DecidableEq

deriving instance DecidableEq for Except

/-- Outcome of an encode entry point: the bytes written to the `io.Writer`
(modelled as an infallible sink) and the `(int, error)` return value. -/
structure WriteOut where
  written : List Nat
  ret : Except EncodeErr Nat
deriving DecidableEq

/-- A message argument is modelled by its `ssz.Marshal` outcome (the external
serializer is opaque to this package): `none` is a nil interface value,
`some (Except.ok b)` a message serializing to bytes `b`, `some (Except.error _)`
a message on which `ssz.Marshal` fails. -/
abbrev Msg : Type := Option (Except EncodeErr (List Nat))

/-- `proto.EncodeVarint` (external gogo/protobuf, documented little-endian
base-128 varint): 7-bit groups, least significant first, continuation bit set
on every byte but the last.  Fuel 10 covers every `uint64`. -/
def varintEncodeAux : Nat → Nat → List Nat
  | 0, n => [n % 128]
  | fuel + 1, n => if n < 128 then [n] else (n % 128 + 128) :: varintEncodeAux fuel (n / 128)

def varintEncode (n : Nat) : List Nat := varintEncodeAux 10 n

/-- Modelled from the spec: the repository's `readVarint` helper is not under
the examined source; the spec frames messages as
`[varint: byte-length of payload][payload bytes]`, so it is modelled as
standard protobuf varint decoding over the byte stream, returning the decoded
length and the remaining stream, `none` on an exhausted or overlong varint. -/
def readVarintAux : List Nat → Nat → Nat → Option (Nat × List Nat)
  | [], _, _ => none
  | byte :: rest, shift, acc =>
      if byte < 128 then some (acc + byte * 2 ^ shift, rest)
      else if 63 ≤ shift then none
      else readVarintAux rest (shift + 7) (acc + (byte - 128) * 2 ^ shift)

def readVarint (stream : List Nat) : Option (Nat × List Nat) :=
  readVarintAux stream 0 0

/-- `writeSnappyBuffer` (ssz.go:182-190): pipes the bytes through the external
framed snappy writer (`compress` stands for the writer's output on the given
bytes) and returns the byte count accepted by `bufWriter.Write`, which is the
uncompressed length on success. -/
def writeSnappyBuffer (compress : List Nat → List Nat) (b : List Nat) :
    List Nat × Nat :=
  (compress b, b.length)

/-- `Encode` (ssz.go:30-42). -/
def Encode (e : SszNetworkEncoder) (compress : List Nat → List Nat) (msg : Msg) :
    WriteOut :=
  match msg with
  | none => { written := [], ret := Except.ok 0 }
  | some (Except.error err) => { written := [], ret := Except.error err }
  | some (Except.ok b) =>
      if e.UseSnappyCompression then
        let r := writeSnappyBuffer compress b
        { written := r.1, ret := Except.ok r.2 }
      else { written := b, ret := Except.ok b.length }

/-- `EncodeGossip` (ssz.go:45-57); `blockCompress` stands for the external
block-format `snappy.Encode`. -/
def EncodeGossip (e : SszNetworkEncoder) (blockCompress : List Nat → List Nat)
    (msg : Msg) : WriteOut :=
  match msg with
  | none => { written := [], ret := Except.ok 0 }
  | some (Except.error err) => { written := [], ret := Except.error err }
  | some (Except.ok b0) =>
      let b := if e.UseSnappyCompression then blockCompress b0 else b0
      { written := b, ret := Except.ok b.length }

/-- `EncodeWithLength` (ssz.go:61-78): varint of the serialized length first,
then the (possibly compressed) payload. -/
def EncodeWithLength (e : SszNetworkEncoder) (compress : List Nat → List Nat)
    (msg : Msg) : WriteOut :=
  match msg with
  | none => { written := [], ret := Except.ok 0 }
  | some (Except.error err) => { written := [], ret := Except.error err }
  | some (Except.ok b) =>
      let pre := varintEncode b.length
      if e.UseSnappyCompression then
        let r := writeSnappyBuffer compress b
        { written := pre ++ r.1, ret := Except.ok r.2 }
      else { written := pre ++ b, ret := Except.ok b.length }

/-- `EncodeWithMaxLength` (ssz.go:82-102). -/
def EncodeWithMaxLength (e : SszNetworkEncoder) (compress : List Nat → List Nat)
    (msg : Msg) (maxSize : Nat) : WriteOut :=
  match msg with
  | none => { written := [], ret := Except.ok 0 }
  | some (Except.error err) => { written := [], ret := Except.error err }
  | some (Except.ok b) =>
      if b.length > maxSize then
        { written := [], ret := Except.error (EncodeErr.sizeTooLarge b.length maxSize) }
      else
        let pre := varintEncode b.length
        if e.UseSnappyCompression then
          let r := writeSnappyBuffer compress b
          { written := pre ++ r.1, ret := Except.ok r.2 }
        else { written := pre ++ b, ret := Except.ok b.length }

/-- `Decode` (ssz.go:109-121), modelled down to the bytes handed to the
external `ssz.Unmarshal` (`doDecode`): with compression on, a buffer of the
*compressed* input's length is allocated, a single `Read` on the framed snappy
reader yields at most that many decompressed bytes (`decompress` stands for
the reader's full decompressed output on the given bytes), and the truncated
prefix is what reaches `doDecode`. -/
def Decode (e : SszNetworkEncoder) (decompress : List Nat → List Nat)
    (b : List Nat) : List Nat :=
  if e.UseSnappyCompression then
    let newObjLen := b.length
    let d := decompress b
    let numOfBytes := min newObjLen d.length
    d.take numOfBytes
  else b

/-- `snappy.MaxEncodedLen` of the external library: `32 + n + n/6`. -/
def snappyMaxEncodedLen (n : Nat) : Nat := 32 + n + n / 6

/-- `MaxLength` (ssz.go:174-179). -/
def MaxLength (e : SszNetworkEncoder) (length : Nat) : Nat :=
  if e.UseSnappyCompression then snappyMaxEncodedLen length else length

/-- Outcome of `DecodeWithMaxLength`: the bytes handed to `doDecode` (or the
error), plus whether the payload buffer allocation (`make` on ssz.go:156) was
reached. -/
structure DecodeRun where
  result : Except DecodeErr (List Nat)
  allocated : Bool
deriving DecidableEq

/-- `DecodeWithMaxLength` (ssz.go:142-162): reject `maxSize` over
`MaxChunkSize`; read the varint length; reject a declared length over
`maxSize`; only then allocate `MaxLength(msgLen)` bytes and read. -/
def DecodeWithMaxLength (e : SszNetworkEncoder) (decompress : List Nat → List Nat)
    (stream : List Nat) (maxSize : Nat) : DecodeRun :=
  if maxSize > MaxChunkSize then
    { result := Except.error (DecodeErr.maxSizeExceedsChunk maxSize), allocated := false }
  else
    match readVarint stream with
    | none => { result := Except.error DecodeErr.varintFailed, allocated := false }
    | some (msgLen, rest) =>
        let r := if e.UseSnappyCompression then decompress rest else rest
        if msgLen > maxSize then
          { result := Except.error (DecodeErr.sizeTooLarge msgLen maxSize), allocated := false }
        else
          let bufLen := MaxLength e msgLen
          let numOfBytes := min bufLen r.length
          { result := Except.ok (r.take numOfBytes), allocated := true }

/-- CRC-32C (Castagnoli), reflected, as used by the external snappy framing:
one step of the bitwise right-shift division. -/
def crc32cStep (c : Nat) : Nat :=
  if c % 2 = 1 then (c / 2) ^^^ 0x82F63B78 else c / 2

def crc32cRounds : Nat → Nat → Nat
  | 0, c => c
  | n + 1, c => crc32cRounds n (crc32cStep c)

def crc32c (bs : List Nat) : Nat :=
  0xFFFFFFFF ^^^ bs.foldl (fun c byte => crc32cRounds 8 (c ^^^ byte % 256)) 0xFFFFFFFF

/-- The checksum mask of the snappy framing format:
`uint32(c>>15 | c<<17) + 0xa282ead8`. -/
def snappyMaskCrc (c : Nat) : Nat :=
  ((c / 32768 ||| c * 131072 % 4294967296) + 0xa282ead8) % 4294967296

/-- Four little-endian bytes of a 32-bit value. -/
def le32 (n : Nat) : List Nat :=
  [n % 256, n / 256 % 256, n / 65536 % 256, n / 16777216 % 256]

/-- The 10-byte stream identifier the framed snappy writer emits first. -/
def snappyMagicChunk : List Nat :=
  [0xff, 0x06, 0x00, 0x00, 0x73, 0x4e, 0x61, 0x50, 0x70, 0x59]

/-- Output of the external framed snappy writer (`snappy.NewBufferedWriter`,
as called by `writeSnappyBuffer`) for a single `Write` of a nonempty buffer of
fewer than 17 bytes followed by `Close`: the block-format encoding of such a
short buffer is strictly longer than the buffer itself, so the writer emits
the stream identifier, then one uncompressed-data chunk — a 4-byte chunk
header (type `0x01`, 3-byte little-endian length = payload length + 4), the
4-byte masked CRC-32C of the payload, and the raw payload bytes. -/
def snappyFramed (b : List Nat) : List Nat :=
  snappyMagicChunk ++
    [0x01, (b.length + 4) % 256, (b.length + 4) / 256 % 256, (b.length + 4) / 65536 % 256] ++
    le32 (snappyMaskCrc (crc32c b)) ++ b

/-- A 100-byte, highly compressible serialized payload for exercising the
decoder's compressed path. -/
def zeros100 : List Nat := List.replicate 100 0

/-- Stand-in for the external framed snappy compressor on `zeros100`: a run of
100 zero bytes compresses to far fewer than 100 bytes. -/
def shrinkCompress (b : List Nat) : List Nat :=
  if b = zeros100 then [7, 7, 7] else b

/-- The decompressor matching `shrinkCompress`. -/
def shrinkDecompress (b : List Nat) : List Nat :=
  if b = [7, 7, 7] then zeros100 else b

end Encoder

/-- C7: `DecodeWithMaxLength` enforces `MaxChunkSize = 2^20`; it errors without
reaching the payload-buffer allocation whenever the caller's `maxSize` exceeds
`MaxChunkSize` or the varint-declared length exceeds `maxSize`; only when the
declared length passes both bounds does it allocate, read and hand the payload
to the deserializer. -/
theorem decodeWithMaxLength_bounds (e : Encoder.SszNetworkEncoder)
    (decompress : List Nat → List Nat) (stream : List Nat) (maxSize : Nat) :
    Encoder.MaxChunkSize = 2 ^ 20 ∧
    (Encoder.MaxChunkSize < maxSize →
      Encoder.DecodeWithMaxLength e decompress stream maxSize =
        { result := Except.error (Encoder.DecodeErr.maxSizeExceedsChunk maxSize),
          allocated := false }) ∧
    (∀ msgLen rest, maxSize ≤ Encoder.MaxChunkSize →
      Encoder.readVarint stream = some (msgLen, rest) →
      maxSize < msgLen →
      Encoder.DecodeWithMaxLength e decompress stream maxSize =
        { result := Except.error (Encoder.DecodeErr.sizeTooLarge msgLen maxSize),
          allocated := false }) ∧
    (∀ msgLen rest, maxSize ≤ Encoder.MaxChunkSize →
      Encoder.readVarint stream = some (msgLen, rest) →
      msgLen ≤ maxSize →
      Encoder.DecodeWithMaxLength e decompress stream maxSize =
        { result := Except.ok
            ((if e.UseSnappyCompression then decompress rest else rest).take
              (min (Encoder.MaxLength e msgLen)
                (if e.UseSnappyCompression then decompress rest else rest).length)),
          allocated := true }) := by
  refine ⟨by decide, ?_, ?_, ?_⟩
  · intro h
    unfold Encoder.DecodeWithMaxLength
    rw [if_pos h]
  · intro msgLen rest h1 h2 h3
    unfold Encoder.DecodeWithMaxLength
    rw [if_neg (not_lt.mpr h1), h2]
    dsimp only
    rw [if_pos h3]
  · intro msgLen rest h1 h2 h3
    unfold Encoder.DecodeWithMaxLength
    rw [if_neg (not_lt.mpr h1), h2]
    dsimp only
    rw [if_neg (not_lt.mpr h3)]

/-- Witness for C7: a concrete rejection of an over-`MaxChunkSize` limit, a
concrete rejection of an over-limit declared length, and a concrete in-bounds
decode that reads the payload. -/
theorem decodeWithMaxLength_bounds_witness :
    Encoder.DecodeWithMaxLength ⟨false⟩ id [5, 0] (2 ^ 20 + 1) =
      { result := Except.error (Encoder.DecodeErr.maxSizeExceedsChunk (2 ^ 20 + 1)),
        allocated := false } ∧
    Encoder.DecodeWithMaxLength ⟨false⟩ id [5, 1, 2, 3, 4, 5] 3 =
      { result := Except.error (Encoder.DecodeErr.sizeTooLarge 5 3),
        allocated := false } ∧
    Encoder.DecodeWithMaxLength ⟨false⟩ id [2, 9, 9, 0] 10 =
      { result := Except.ok [9, 9], allocated := true } := by
  refine ⟨?_, ?_, ?_⟩
  · exact (decodeWithMaxLength_bounds ⟨false⟩ id [5, 0] (2 ^ 20 + 1)).2.1 (by decide)
  · exact (decodeWithMaxLength_bounds ⟨false⟩ id [5, 1, 2, 3, 4, 5] 3).2.2.1
      5 [1, 2, 3, 4, 5] (by decide) (by decide) (by decide)
  · exact ((decodeWithMaxLength_bounds ⟨false⟩ id [2, 9, 9, 0] 10).2.2.2
      2 [9, 9, 0] (by decide) (by decide) (by decide)).trans (by decide)

/-- C8 (amended): for every non-nil message serializing to bytes `b`,
`EncodeWithLength` writes the varint of the length of the *uncompressed*
serialization `b`, immediately followed by the payload — `b` itself, or its
compression when compression is enabled; only with compression disabled is
the varint therefore the byte-length of the payload that follows. -/
theorem encodeWithLength_frame (e : Encoder.SszNetworkEncoder)
    (compress : List Nat → List Nat) (b : List Nat) :
    Encoder.EncodeWithLength e compress (some (Except.ok b)) =
      { written := Encoder.varintEncode b.length ++
          (if e.UseSnappyCompression then compress b else b),
        ret := Except.ok b.length } := by
  obtain ⟨u⟩ := e
  cases u <;> rfl

/-- C8 counterexample: with compression enabled, for a message serializing to
the single byte `0x61` the framed snappy payload that follows the varint is
19 bytes long, while the varint written encodes 1; so the output is not
`varint (length of the following payload) ++ payload` as the claim states. -/
theorem encodeWithLength_frame_cex :
    (Encoder.EncodeWithLength ⟨true⟩ Encoder.snappyFramed
        (some (Except.ok [97]))).written ≠
      Encoder.varintEncode (Encoder.snappyFramed [97]).length ++
        Encoder.snappyFramed [97] := by
  decide

/-- C9, the code evaluated at the failing input: with compression enabled and
a message whose serialization is 100 zero bytes (which the external snappy
compressor shrinks — here to 3 bytes), the bytes `Decode` hands to the
deserializer after `Encode` are a 3-byte truncation of the serialization, not
the serialization, because the decode buffer is sized by the compressed
length; the round trip is broken even though the compressor round-trips. -/
theorem decode_truncates_compressed_payload :
    Encoder.shrinkDecompress (Encoder.shrinkCompress Encoder.zeros100) =
      Encoder.zeros100 ∧
    Encoder.Decode ⟨true⟩ Encoder.shrinkDecompress
        ((Encoder.Encode ⟨true⟩ Encoder.shrinkCompress
          (some (Except.ok Encoder.zeros100))).written) = [0, 0, 0] ∧
    [0, 0, 0] ≠ Encoder.zeros100 := by
  decide

/-- C10: every encode entry point maps a nil message to a zero byte count, no
error, and an empty write, for every compressor and every size limit. -/
theorem encode_nil_noop (e : Encoder.SszNetworkEncoder)
    (c1 c2 c3 c4 : List Nat → List Nat) (maxSize : Nat) :
    Encoder.Encode e c1 none = { written := [], ret := Except.ok 0 } ∧
    Encoder.EncodeGossip e c2 none = { written := [], ret := Except.ok 0 } ∧
    Encoder.EncodeWithLength e c3 none = { written := [], ret := Except.ok 0 } ∧
    Encoder.EncodeWithMaxLength e c4 none maxSize =
      { written := [], ret := Except.ok 0 } :=
  ⟨rfl, rfl, rfl, rfl⟩
